import Mathlib

/-!
Verification development for the bocadillo MySQL binlog reader.

The Go sources are shallowly embedded:
* bytes are `List Nat` (each entry a byte value), machine integers are `Nat`
  with explicit `% 2^w` where Go overflow matters;
* the byte cursor (`buffer.Buffer` in Go) is the `Buffer` structure below, and
  fallible reads live in `Dec α = StateT Buffer Option α`.  A `none` result
  models a Go runtime panic (index out of range) at that point of the
  computation;
* Go maps are association lists (`tmInsert` / `List.lookup` / `List.length`
  model assignment, lookup and `len`).
-/

/-- Little-endian value of a byte list (first byte is least significant). -/
def leUint (bs : List Nat) : Nat := bs.foldr (fun b acc => acc * 256 + b) 0

/-- Modelled from the spec: the ByteCursor (Go package `buffer`, not part of
the sources) — a non-owning view over a byte buffer with a cursor.  Reads past
the end are Go panics, modelled as `none`. -/
structure Buffer where
  data : List Nat
  pos : Nat
  deriving DecidableEq

/-- A decoding step: state-passing over `Buffer`, `none` models a Go panic. -/
abbrev Dec (α : Type) : Type := StateT Buffer Option α

/-- Fresh cursor over a byte list (Go `buffer.New`). -/
def Buffer.new (l : List Nat) : Buffer := ⟨l, 0⟩

/-- Modelled from the spec: read `n` raw bytes, panic when the buffer is
exhausted. -/
def Buffer.readBytes (n : Nat) : Dec (List Nat) := fun b =>
  if b.pos + n ≤ b.data.length then
    some ((b.data.drop b.pos).take n, ⟨b.data, b.pos + n⟩)
  else none

/-- Modelled from the spec: `read_u8`. -/
def Buffer.readUint8 : Dec Nat := do
  let bs ← Buffer.readBytes 1
  pure (leUint bs)

/-- Modelled from the spec: `read_u16`, little-endian. -/
def Buffer.readUint16 : Dec Nat := do
  let bs ← Buffer.readBytes 2
  pure (leUint bs)

/-- Modelled from the spec: `read_u24`, little-endian. -/
def Buffer.readUint24 : Dec Nat := do
  let bs ← Buffer.readBytes 3
  pure (leUint bs)

/-- Modelled from the spec: `read_u32`, little-endian. -/
def Buffer.readUint32 : Dec Nat := do
  let bs ← Buffer.readBytes 4
  pure (leUint bs)

/-- Modelled from the spec: `read_u48`, little-endian. -/
def Buffer.readUint48 : Dec Nat := do
  let bs ← Buffer.readBytes 6
  pure (leUint bs)

/-- Modelled from the spec: `read_u64`, little-endian. -/
def Buffer.readUint64 : Dec Nat := do
  let bs ← Buffer.readBytes 8
  pure (leUint bs)

/-- Modelled from the spec: `read_string_eof` — the remaining bytes. -/
def Buffer.readStringEOF : Dec (List Nat) := fun b =>
  some (b.data.drop b.pos, ⟨b.data, b.data.length⟩)

/-- Modelled from the spec: `read_string_varlen n` — exactly `n` bytes. -/
def Buffer.readStringVarLen (n : Nat) : Dec (List Nat) := Buffer.readBytes n

/-- Modelled from the spec: `read_uint_lenenc` — MySQL length-encoded integer:
first byte `n`; `n<0xFB` gives `n`; `0xFC` the next 2 bytes; `0xFD` the next 3;
`0xFE` the next 8; `0xFB` denotes NULL (value modelled as 0, unused here). -/
def Buffer.readUintLenEnc : Dec Nat := do
  let b ← Buffer.readUint8
  if b < 0xFB then pure b
  else if b = 0xFC then Buffer.readUint16
  else if b = 0xFD then Buffer.readUint24
  else if b = 0xFE then Buffer.readUint64
  else pure 0

/-- Modelled from the spec: `read_string_lenenc` — lenenc-prefixed bytes. -/
def Buffer.readStringLenEnc : Dec (List Nat) := do
  let n ← Buffer.readUintLenEnc
  Buffer.readBytes n

/-- Modelled from the spec: `read_string_varenc prefix_bytes` — a length prefix
of 1/2/3/4 little-endian bytes, then that many bytes. -/
def Buffer.readStringVarEnc (prefixBytes : Nat) : Dec (List Nat) := do
  let lenBs ← Buffer.readBytes prefixBytes
  Buffer.readBytes (leUint lenBs)

/-- Modelled from the spec: `skip n`. -/
def Buffer.skip (n : Nat) : Dec Unit := fun b =>
  if b.pos + n ≤ b.data.length then some ((), ⟨b.data, b.pos + n⟩) else none

/-- Modelled from the spec: `remaining() > 0` (Go `buf.More()`). -/
def Buffer.more : Dec Bool := fun b => some (b.pos < b.data.length, b)

/-- Modelled from the spec: the unconsumed tail of the buffer (Go
`buf.Cur()`), consuming nothing. -/
def Buffer.cur : Dec (List Nat) := fun b => some (b.data.drop b.pos, b)

/-- Modelled from the spec: `mysql.DecodeUint16` — decode the first 2 bytes of
a slice little-endian; a shorter slice is a Go index panic (`none`). -/
def DecodeUint16 (b : List Nat) : Option Nat :=
  if 2 ≤ b.length then some (leUint (b.take 2)) else none

/-- Modelled from the spec: `mysql.DecodeUint32`. -/
def DecodeUint32 (b : List Nat) : Option Nat :=
  if 4 ≤ b.length then some (leUint (b.take 4)) else none

/-- Modelled from the spec: `mysql.DecodeUint48`. -/
def DecodeUint48 (b : List Nat) : Option Nat :=
  if 6 ≤ b.length then some (leUint (b.take 6)) else none

/-- Modelled from the spec: binlog event type codes (the `binlog` package's
constants are not among the sources; values are the standard MySQL binlog
event type codes). -/
abbrev EventType : Type := Nat

def EventTypeQuery : EventType := 2

def EventTypeRotate : EventType := 4

def EventTypeFormatDescription : EventType := 15

def EventTypeXID : EventType := 16

def EventTypeTableMap : EventType := 19

def EventTypeWriteRowsV0 : EventType := 20

def EventTypeUpdateRowsV0 : EventType := 21

def EventTypeDeleteRowsV0 : EventType := 22

def EventTypeWriteRowsV1 : EventType := 23

def EventTypeUpdateRowsV1 : EventType := 24

def EventTypeDeleteRowsV1 : EventType := 25

def EventTypeWriteRowsV2 : EventType := 30

def EventTypeUpdateRowsV2 : EventType := 31

def EventTypeDeleteRowsV2 : EventType := 32

def EventTypeGTID : EventType := 33

/-- Modelled from the spec: MySQL column type codes (the `mysql` package is
not among the sources; `String = 0xFE` and `JSON = 0xF5` are stated in the
spec, the rest are the standard MySQL protocol codes). -/
def ColumnTypeDecimal : Nat := 0

def ColumnTypeTiny : Nat := 1

def ColumnTypeShort : Nat := 2

def ColumnTypeLong : Nat := 3

def ColumnTypeFloat : Nat := 4

def ColumnTypeDouble : Nat := 5

def ColumnTypeNull : Nat := 6

def ColumnTypeTimestamp : Nat := 7

def ColumnTypeLonglong : Nat := 8

def ColumnTypeInt24 : Nat := 9

def ColumnTypeDate : Nat := 10

def ColumnTypeTime : Nat := 11

def ColumnTypeDatetime : Nat := 12

def ColumnTypeYear : Nat := 13

def ColumnTypeNewDate : Nat := 14

def ColumnTypeVarchar : Nat := 15

def ColumnTypeBit : Nat := 16

def ColumnTypeTimestamp2 : Nat := 17

def ColumnTypeDatetime2 : Nat := 18

def ColumnTypeTime2 : Nat := 19

def ColumnTypeJSON : Nat := 245

def ColumnTypeNewDecimal : Nat := 246

def ColumnTypeEnum : Nat := 247

def ColumnTypeSet : Nat := 248

def ColumnTypeTinyblob : Nat := 249

def ColumnTypeMediumblob : Nat := 250

def ColumnTypeLongblob : Nat := 251

def ColumnTypeBlob : Nat := 252

def ColumnTypeVarstring : Nat := 253

def ColumnTypeString : Nat := 254

def ColumnTypeGeometry : Nat := 255

/-- Embeds `RowsFlagEndOfStatement` (src/binlog/event_rows.go): bitmask `0x0001`. -/
def RowsFlagEndOfStatement : Nat := 0x0001

/-- Modelled from the spec: checksum algorithm of a format description,
`{None, CRC32, Undefined}`. -/
inductive ChecksumAlgorithm where
  | algNone
  | algCRC32
  | algUndefined
  deriving DecidableEq

/-- Modelled from the spec: server details carried by a format description. -/
structure ServerDetails where
  ChecksumAlgorithm : ChecksumAlgorithm
  deriving DecidableEq

/-- Modelled from the spec: `FormatDescription` (the `binlog` package
declaration is not among the sources).  `HeaderLen` models the Go method
`HeaderLen()`. -/
structure FormatDescription where
  Version : Nat
  ServerVersion : List Nat
  CreateTimestamp : Nat
  HeaderLen : Nat
  EventTypeHeaderLens : List Nat
  ServerDetails : ServerDetails
  deriving DecidableEq

/-- Modelled from the spec: `TableIDSize` — a rows/table-map event stores its
table id in 6 bytes unless the format description assigns the event type a
post-header length of 6, then in 4 bytes ("u6 if FD says size 6, else u4";
the per-type header length array is indexed by `type - 1`). -/
def FormatDescription.TableIDSize (fd : FormatDescription) (t : EventType) : Nat :=
  if fd.EventTypeHeaderLens.getD (t - 1) 0 = 6 then 4 else 6

/-- Embeds `Position` (src/reader/reader.go, `binlog` part): log file name and byte
offset.  The Go `string` is a byte string, modelled as `List Nat`. -/
structure Position where
  File : List Nat
  Offset : Nat
  deriving DecidableEq

/-- Modelled from the spec: `TableDescription` — schema/table name, column
type array, per-column unpacked meta, nullability bitmap. -/
structure TableDescription where
  Schema : List Nat
  Table : List Nat
  ColumnTypes : List Nat
  ColumnMeta : List Nat
  NullBitmap : List Nat
  deriving DecidableEq

/-- Embeds `RowsEventVersion` (src/binlog/event_rows.go): version of a rows event,
`-1` if the event is not a rows type. -/
def RowsEventVersion (et : EventType) : Int :=
  if et = EventTypeWriteRowsV0 ∨ et = EventTypeUpdateRowsV0 ∨ et = EventTypeDeleteRowsV0 then 0
  else if et = EventTypeWriteRowsV1 ∨ et = EventTypeUpdateRowsV1 ∨ et = EventTypeDeleteRowsV1 then 1
  else if et = EventTypeWriteRowsV2 ∨ et = EventTypeUpdateRowsV2 ∨ et = EventTypeDeleteRowsV2 then 2
  else -1

/-- Embeds `RowsEventHasExtraData` (src/binlog/event_rows.go). -/
def RowsEventHasExtraData (et : EventType) : Bool := RowsEventVersion et = 2

/-- Embeds `RowsEventHasSecondBitmap` (src/binlog/event_rows.go). -/
def RowsEventHasSecondBitmap (et : EventType) : Bool :=
  et == EventTypeUpdateRowsV1 || et == EventTypeUpdateRowsV2

/-- A decoded column value (Go `interface{}` slot in a row).  Temporal,
decimal, bit and JSON values keep their raw consumed bytes: the claims under
verification do not inspect their semantic decoding, only the byte
consumption and the slot placement.  `unsupported` models the `fmt.Errorf`
sentinel produced for unsupported column types. -/
inductive Value where
  | null
  | uint (n : Nat)
  | float32 (raw : List Nat)
  | float64 (raw : List Nat)
  | decimal (raw : List Nat)
  | year (n : Nat)
  | date (n : Nat)
  | time (n : Nat)
  | time2 (raw : List Nat)
  | timestamp (n : Nat)
  | timestamp2 (raw : List Nat)
  | datetime (n : Nat)
  | datetime2 (raw : List Nat)
  | str (bs : List Nat)
  | blob (bs : List Nat)
  | json (bs : List Nat)
  | bits (raw : List Nat)
  | enum (n : Nat)
  | unsupported (ct : Nat) (meta : Nat)
  deriving DecidableEq

/-- Modelled from the spec: residual bytes of a packed-decimal digit group of
the given size (`{0,1,1,2,2,3,3,4,4}[residual]`). -/
def decimalResid (r : Nat) : Nat := [0, 1, 1, 2, 2, 3, 3, 4, 4].getD r 0

/-- Modelled from the spec: byte size of a packed decimal with the given
precision and scale (9-digit groups of 4 bytes plus residual prefix). -/
def decimalBinSize (precision decimals : Nat) : Nat :=
  let intg := precision - decimals
  (intg / 9) * 4 + decimalResid (intg % 9) + (decimals / 9) * 4 + decimalResid (decimals % 9)

/-- The `String` (0xFE) meta rewrite of `RowsEvent.decodeValue`
(src/binlog/event_rows.go lines 136-149): yields the effective column type
and the local `length`; `uint8` casts are `% 256`. -/
def stringMetaRewrite (ct meta : Nat) : Nat × Nat :=
  if ct = ColumnTypeString ∧ 0xFF < meta then
    let typeByte := (meta >>> 8) % 256
    let lengthByte := (meta &&& 0xFF) % 256
    if typeByte &&& 0x30 ≠ 0x30 then
      (typeByte ||| 0x30, lengthByte ||| (((typeByte &&& 0x30) ^^^ 0x30) <<< 4))
    else
      (typeByte, lengthByte)
  else (ct, 0)

/-- Embeds `readString` (src/binlog/event_rows.go): 1-byte length prefix when
`length < 256`, else a 2-byte prefix. -/
def readString (length : Nat) : Dec (List Nat) :=
  if length < 256 then Buffer.readStringVarEnc 1
  else Buffer.readStringVarEnc 2

/-- The `switch ct` dispatch of `RowsEvent.decodeValue`
(src/binlog/event_rows.go lines 151-249), after the `String` meta rewrite has
fixed the effective type `ct` and the local `length`.  The byte consumption of
the `mysql.Decode*`/`buffer.Read*` helpers that are not among the sources is
modelled from the spec (fsp fractional bytes, decimal group sizes, prefix
widths); the final `fallthrough`/`default` group returns the error sentinel
consuming nothing. -/
def dispatchValue (ct length meta : Nat) : Dec Value :=
  if ct = ColumnTypeNull then pure .null
  else if ct = ColumnTypeTiny then do pure (.uint (← Buffer.readUint8))
  else if ct = ColumnTypeShort then do pure (.uint (← Buffer.readUint16))
  else if ct = ColumnTypeInt24 then do pure (.uint (← Buffer.readUint24))
  else if ct = ColumnTypeLong then do pure (.uint (← Buffer.readUint32))
  else if ct = ColumnTypeLonglong then do pure (.uint (← Buffer.readUint64))
  else if ct = ColumnTypeFloat then do pure (.float32 (← Buffer.readBytes 4))
  else if ct = ColumnTypeDouble then do pure (.float64 (← Buffer.readBytes 8))
  else if ct = ColumnTypeNewDecimal then do
    let precision := meta >>> 8
    let decimals := meta &&& 0xFF
    pure (.decimal (← Buffer.readBytes (decimalBinSize precision decimals)))
  else if ct = ColumnTypeYear then do
    let b ← Buffer.readUint8
    pure (.year (if b = 0 then 0 else 1900 + b))
  else if ct = ColumnTypeDate then do pure (.date (← Buffer.readUint24))
  else if ct = ColumnTypeTime then do pure (.time (← Buffer.readUint24))
  else if ct = ColumnTypeTime2 then do
    pure (.time2 (← Buffer.readBytes (3 + (meta + 1) / 2)))
  else if ct = ColumnTypeTimestamp then do pure (.timestamp (← Buffer.readUint32))
  else if ct = ColumnTypeTimestamp2 then do
    pure (.timestamp2 (← Buffer.readBytes (4 + (meta + 1) / 2)))
  else if ct = ColumnTypeDatetime then do pure (.datetime (← Buffer.readUint64))
  else if ct = ColumnTypeDatetime2 then do
    pure (.datetime2 (← Buffer.readBytes (5 + (meta + 1) / 2)))
  else if ct = ColumnTypeString then do pure (.str (← readString length))
  else if ct = ColumnTypeVarchar ∨ ct = ColumnTypeVarstring then do
    pure (.str (← readString meta))
  else if ct = ColumnTypeBlob ∨ ct = ColumnTypeGeometry then do
    pure (.blob (← Buffer.readStringVarEnc meta))
  else if ct = ColumnTypeJSON then do pure (.json (← Buffer.readStringVarEnc meta))
  else if ct = ColumnTypeTinyblob then do pure (.blob (← Buffer.readStringVarEnc 1))
  else if ct = ColumnTypeMediumblob then do pure (.blob (← Buffer.readStringVarEnc 3))
  else if ct = ColumnTypeLongblob then do pure (.blob (← Buffer.readStringVarEnc 4))
  else if ct = ColumnTypeBit then do
    let nbits := (meta >>> 8) * 8 + (meta &&& 0xFF)
    pure (.bits (← Buffer.readBytes ((nbits + 7) / 8)))
  else if ct = ColumnTypeSet then do
    pure (.bits (← Buffer.readBytes length))
  else if ct = ColumnTypeEnum then do
    pure (.enum (leUint (← Buffer.readBytes length)))
  else pure (.unsupported ct meta)

/-- Embeds `RowsEvent.decodeValue` (src/binlog/event_rows.go): the `String` meta
rewrite followed by the type dispatch. -/
def RowsEvent.decodeValue (ct meta : Nat) : Dec Value :=
  dispatchValue (stringMetaRewrite ct meta).1 (stringMetaRewrite ct meta).2 meta

/-- Embeds `isBitSet` (src/binlog/event_rows.go); an out-of-range index is a Go
panic (`none`). -/
def isBitSet (bm : List Nat) (i : Nat) : Option Bool :=
  match bm.get? (i >>> 3) with
  | some b => some (b &&& (1 <<< (i &&& 7)) > 0)
  | none => none

/-- The present-column count loop of `RowsEvent.decodeRows`
(src/binlog/event_rows.go lines 107-112): `rem` columns remain starting at
column `i`, `acc` bits counted so far. -/
def presentCountAux (bm : List Nat) : Nat → Nat → Nat → Option Nat
  | 0, _, acc => some acc
  | rem + 1, i, acc =>
    match isBitSet bm i with
    | none => none
    | some b => presentCountAux bm rem (i + 1) (if b then acc + 1 else acc)

/-- Number of set bits of `bm` among the first `cc` columns. -/
def presentCount (bm : List Nat) (cc : Nat) : Option Nat := presentCountAux bm cc 0 0

/-- The per-column loop of `RowsEvent.decodeRows` (src/binlog/event_rows.go
lines 116-131): `rem` columns remain starting at column `i`, with `nullIdx`
null-bitmap bits consumed so far.  A non-present column keeps the Go zero
value of its slot (`nil`, modelled `Value.null`). -/
def RowsEvent.decodeCols (td : TableDescription) (bm nullBM : List Nat) :
    Nat → Nat → Nat → Dec (List Value)
  | 0, _, _ => pure []
  | rem + 1, i, nullIdx =>
    match isBitSet bm i with
    | none => fun _ => none
    | some false => do
      let rest ← RowsEvent.decodeCols td bm nullBM rem (i + 1) nullIdx
      pure (Value.null :: rest)
    | some true =>
      match nullBM.get? (nullIdx >>> 3) with
      | none => fun _ => none
      | some nb =>
        if (nb >>> (nullIdx % 8)) &&& 1 > 0 then do
          let rest ← RowsEvent.decodeCols td bm nullBM rem (i + 1) (nullIdx + 1)
          pure (Value.null :: rest)
        else
          match td.ColumnTypes.get? i, td.ColumnMeta.get? i with
          | some ctb, some m => do
            let v ← RowsEvent.decodeValue ctb m
            let rest ← RowsEvent.decodeCols td bm nullBM rem (i + 1) (nullIdx + 1)
            pure (v :: rest)
          | _, _ => fun _ => none

/-- Embeds `RowsEvent.decodeRows` (src/binlog/event_rows.go): decode one row against
the present-bitmap `bm` for `cc` columns. -/
def RowsEvent.decodeRows (td : TableDescription) (bm : List Nat) (cc : Nat) :
    Dec (List Value) := fun b =>
  match presentCount bm cc with
  | none => none
  | some k =>
    match Buffer.readStringVarLen ((k + 7) / 8) b with
    | none => none
    | some (nullBM, b1) => RowsEvent.decodeCols td bm nullBM cc 0 0 b1

/-- The row loop of `RowsEvent.Decode` (src/binlog/event_rows.go lines
84-102): a do-while that decodes one row (two for update events) per
iteration and stops when the buffer is exhausted.  The loop is fuel-bounded:
an iteration of the Go loop that consumes no bytes repeats identically
forever, so every terminating Go execution performs at most
`remaining bytes + 1` iterations and is captured with the fuel `ReadEvent`
supplies; exhausted fuel is mapped to `none`. -/
def RowsEvent.rowsLoop (typ : EventType) (td : TableDescription) (cc : Nat)
    (bm1 bm2 : List Nat) : Nat → Dec (List (List Value))
  | 0 => fun _ => none
  | fuel + 1 => do
    let row ← RowsEvent.decodeRows td bm1 cc
    let rows2 ←
      if RowsEventHasSecondBitmap typ then do
        let row2 ← RowsEvent.decodeRows td bm2 cc
        pure [row, row2]
      else pure [row]
    let m ← Buffer.more
    if m then do
      let rest ← RowsEvent.rowsLoop typ td cc bm1 bm2 fuel
      pure (rows2 ++ rest)
    else pure rows2

/-- The fields of `RowsEvent` (src/binlog/event_rows.go); `typ` models the Go
field `Type`. -/
structure RowsEvent where
  typ : EventType
  TableID : Nat
  Flags : Nat
  ExtraData : List Nat
  ColumnCount : Nat
  ColumnBitmap1 : List Nat
  ColumnBitmap2 : List Nat
  Rows : List (List Value)
  deriving DecidableEq

/-- The part of `RowsEvent.Decode` after table id and flags
(src/binlog/event_rows.go lines 71-102): extra data (v2 only; the Go
`uint16` subtraction `extraLen - 2` wraps), column count, column bitmaps and
the row loop.  Returns
`(ExtraData, ColumnCount, ColumnBitmap1, ColumnBitmap2, Rows)`. -/
def RowsEvent.decodeRest (typ : EventType) (td : TableDescription) :
    Dec (List Nat × Nat × List Nat × List Nat × List (List Value)) := do
  let extraData ←
    if RowsEventHasExtraData typ then do
      let extraLen ← Buffer.readUint16
      Buffer.readStringVarLen ((extraLen + 0x10000 - 2) % 0x10000)
    else pure []
  let cc ← Buffer.readUintLenEnc
  let bm1 ← Buffer.readStringVarLen ((cc + 7) / 8)
  let bm2 ←
    if RowsEventHasSecondBitmap typ then Buffer.readStringVarLen ((cc + 7) / 8)
    else pure []
  let b ← get
  let rows ← RowsEvent.rowsLoop typ td cc bm1 bm2 (b.data.length + 2 - b.pos)
  pure (extraData, cc, bm1, bm2, rows)

/-- The body of `RowsEvent.Decode` (src/binlog/event_rows.go lines 61-103):
table id (6 or 4 bytes per the format description), flags, then the rest.  A
`none` is a panic of the body, recovered by `RowsEvent.Decode`. -/
def RowsEvent.decodeBody (typ : EventType) (fd : FormatDescription)
    (td : TableDescription) : Dec RowsEvent := do
  let tableID ←
    if fd.TableIDSize typ = 6 then Buffer.readUint48 else Buffer.readUint32
  let flags ← Buffer.readUint16
  let rest ← RowsEvent.decodeRest typ td
  pure { typ := typ, TableID := tableID, Flags := flags, ExtraData := rest.1,
         ColumnCount := rest.2.1, ColumnBitmap1 := rest.2.2.1,
         ColumnBitmap2 := rest.2.2.2.1, Rows := rest.2.2.2.2 }

/-- Embeds `RowsEvent.Decode` (src/binlog/event_rows.go lines 42-104): runs the body
over a fresh cursor; the deferred `recover` turns any panic of the body into
a returned error. -/
def RowsEvent.Decode (typ : EventType) (connBuff : List Nat)
    (fd : FormatDescription) (td : TableDescription) : Except String RowsEvent :=
  match RowsEvent.decodeBody typ fd td (Buffer.new connBuff) with
  | none => .error "Recovered from panic in RowsEvent.Decode"
  | some (re, _) => .ok re

/-- Embeds `RowsEvent.PeekTableIDAndFlags` (src/binlog/event_rows.go lines 34-39):
table id and flags read directly from the slice, without a cursor and without
any panic recovery; `typ` is the Go receiver's `Type` field. -/
def RowsEvent.PeekTableIDAndFlags (typ : EventType) (connBuff : List Nat)
    (fd : FormatDescription) : Option (Nat × Nat) :=
  if fd.TableIDSize typ = 6 then
    match DecodeUint48 connBuff, DecodeUint16 (connBuff.drop 6) with
    | some t, some f => some (t, f)
    | _, _ => none
  else
    match DecodeUint32 connBuff, DecodeUint16 (connBuff.drop 4) with
    | some t, some f => some (t, f)
    | _, _ => none

/-- Embeds `RotateEvent.Decode` body (src/reader/reader.go, `binlog` part): when the
format version is greater than 1 the next offset is a little-endian u64, else
it is fixed at 4; the file name is the remaining bytes. -/
def RotateEvent.DecodeBody (fd : FormatDescription) : Dec Position := do
  let off ← if 1 < fd.Version then Buffer.readUint64 else pure 4
  let file ← Buffer.readStringEOF
  pure { File := file, Offset := off }

/-- Embeds `RotateEvent.Decode` (src/reader/reader.go, `binlog` part).  The Go
function always returns a `nil` error; a short buffer makes `ReadUint64`
panic, which propagates (`none`). -/
def RotateEvent.Decode (connBuff : List Nat) (fd : FormatDescription) : Option Position :=
  match RotateEvent.DecodeBody fd (Buffer.new connBuff) with
  | none => none
  | some (pos, _) => some pos

/-- Embeds `EventHeader` (the `binlog` package declaration is not among the sources);
`typ` models the Go field `Type`. -/
structure EventHeader where
  Timestamp : Nat
  typ : EventType
  ServerID : Nat
  EventLen : Nat
  NextOffset : Nat
  Flags : Nat
  deriving DecidableEq

/-- Modelled from the spec: `EventHeader.Decode` — the 19-byte fixed layout
`timestamp u32 | type u8 | server_id u32 | event_len u32 | next_offset u32 |
flags u16` (format version at least 4); a shorter packet is a decode error. -/
def EventHeader.Decode (connBuff : List Nat) (_fd : FormatDescription) : Option EventHeader :=
  if 19 ≤ connBuff.length then
    some { Timestamp := leUint (connBuff.take 4),
           typ := connBuff.getD 4 0,
           ServerID := leUint ((connBuff.drop 5).take 4),
           EventLen := leUint ((connBuff.drop 9).take 4),
           NextOffset := leUint ((connBuff.drop 13).take 4),
           Flags := leUint ((connBuff.drop 17).take 2) }
  else none

/-- Modelled from the spec: `FormatDescriptionEvent.Decode` — layout
`binlog_version u2 | server_version u50 | create_timestamp u4 | header_len u1
| event_type_header_lens to end`; when a 5-byte checksum block is present its
first byte names the algorithm (1 is CRC32; the spec's size-based inference
is simplified to reading that byte whenever the tail is long enough). -/
def FormatDescriptionEvent.Decode (buffer : List Nat) : Option FormatDescription :=
  if 57 ≤ buffer.length then
    let rest := buffer.drop 57
    let hasChecksumBlock := decide (5 ≤ rest.length)
    let csByte := if hasChecksumBlock then rest.getD (rest.length - 5) 0 else 0
    some { Version := leUint (buffer.take 2),
           ServerVersion := (buffer.drop 2).take 50,
           CreateTimestamp := leUint ((buffer.drop 52).take 4),
           HeaderLen := buffer.getD 56 0,
           EventTypeHeaderLens := if hasChecksumBlock then rest.take (rest.length - 5) else rest,
           ServerDetails := { ChecksumAlgorithm :=
             if csByte = 1 then .algCRC32
             else if csByte = 0 then .algNone
             else .algUndefined } }
  else none

/-- Modelled from the spec: meta-byte width of a column type for the packed
table-map meta blob (width 2 for STRING, VARCHAR, VAR_STRING, NEW_DECIMAL,
BIT; width 1 for FLOAT, DOUBLE, BLOB, GEOMETRY, JSON, TIME2, DATETIME2,
TIMESTAMP2; width 0 otherwise). -/
def metaWidth (ct : Nat) : Nat :=
  if ct = ColumnTypeString ∨ ct = ColumnTypeVarchar ∨ ct = ColumnTypeVarstring ∨
     ct = ColumnTypeNewDecimal ∨ ct = ColumnTypeBit then 2
  else if ct = ColumnTypeFloat ∨ ct = ColumnTypeDouble ∨ ct = ColumnTypeBlob ∨
          ct = ColumnTypeGeometry ∨ ct = ColumnTypeJSON ∨ ct = ColumnTypeTime2 ∨
          ct = ColumnTypeDatetime2 ∨ ct = ColumnTypeTimestamp2 then 1
  else 0

/-- Modelled from the spec: unpack the packed table-map meta blob into one
u16 per column; 2-byte entries are big-endian for STRING and little-endian
otherwise. -/
def unpackColumnMeta : List Nat → List Nat → List Nat
  | [], _ => []
  | ct :: cts, blob =>
    if metaWidth ct = 2 then
      (if ct = ColumnTypeString then blob.getD 0 0 * 256 + blob.getD 1 0
       else blob.getD 0 0 + blob.getD 1 0 * 256) :: unpackColumnMeta cts (blob.drop 2)
    else if metaWidth ct = 1 then
      blob.getD 0 0 :: unpackColumnMeta cts (blob.drop 1)
    else 0 :: unpackColumnMeta cts blob

/-- Modelled from the spec: `TableMapEvent.Decode` body — table id (width per
the format description), flags, schema and table names, column count, column
types, packed column meta, null bitmap (spec section 4.5). -/
def TableMapEvent.DecodeBody (fd : FormatDescription) : Dec (Nat × TableDescription) := do
  let tableID ←
    if fd.TableIDSize EventTypeTableMap = 6 then Buffer.readUint48 else Buffer.readUint32
  let _flags ← Buffer.readUint16
  let schemaLen ← Buffer.readUint8
  let schema ← Buffer.readBytes schemaLen
  let _term1 ← Buffer.readUint8
  let tableLen ← Buffer.readUint8
  let table ← Buffer.readBytes tableLen
  let _term2 ← Buffer.readUint8
  let cc ← Buffer.readUintLenEnc
  let colTypes ← Buffer.readBytes cc
  let metaBlob ← Buffer.readStringLenEnc
  let nullBM ← Buffer.readBytes ((cc + 7) / 8)
  pure (tableID, { Schema := schema, Table := table, ColumnTypes := colTypes,
                   ColumnMeta := unpackColumnMeta colTypes metaBlob,
                   NullBitmap := nullBM })

/-- Modelled from the spec: `TableMapEvent.Decode` over a fresh cursor. -/
def TableMapEvent.Decode (connBuff : List Nat) (fd : FormatDescription) :
    Option (Nat × TableDescription) :=
  match TableMapEvent.DecodeBody fd (Buffer.new connBuff) with
  | none => none
  | some (x, _) => some x

/-- The table map index `table_id -> TableDescription` (a Go map, modelled as
an association list with distinct keys). -/
abbrev TableMap : Type := List (Nat × TableDescription)

/-- Go map assignment `m[k] = v`: replaces any entry of key `k`. -/
def tmInsert (m : TableMap) (k : Nat) (v : TableDescription) : TableMap :=
  m.filter (fun p => p.1 != k) ++ [(k, v)]

/-- Embeds `Reader` (src/reader/reader.go): current position (Go field `state`),
latest format description and the table map index.  The database connection
is an external collaborator and is not modelled. -/
structure Reader where
  state : Position
  format : FormatDescription
  tableMap : TableMap
  deriving DecidableEq

/-- Embeds `Event` (src/reader/reader.go): what `ReadEvent` returns to the caller. -/
structure Event where
  Format : FormatDescription
  Header : EventHeader
  Buffer : List Nat
  Offset : Nat
  Table : Option TableDescription
  deriving DecidableEq

/-- Error results of `ReadEvent` (src/reader/reader.go); `unknownTableID`
models `ErrUnknownTableID`, the others the annotated decode errors. -/
inductive ReadErr where
  | decodeHeader
  | decodeFormatDescription
  | decodeTableMap
  | unknownTableID
  deriving DecidableEq

/-- Outcome of one `ReadEvent` call: a returned event, a returned error, or a
Go panic escaping the call (`panicked`). -/
inductive ReadResult where
  | ok (evt : Event)
  | fail (e : ReadErr)
  | panicked
  deriving DecidableEq

/-- Embeds `Reader.initTableMap` (src/reader/reader.go). -/
def initTableMap (r : Reader) : Reader := { r with tableMap := [] }

/-- The rows-event case list of the `ReadEvent` switch
(src/reader/reader.go lines 110-118): the nine write/update/delete v0/v1/v2
variants. -/
def isRowsType (et : EventType) : Bool :=
  et == EventTypeWriteRowsV0 || et == EventTypeWriteRowsV1 || et == EventTypeWriteRowsV2 ||
  et == EventTypeUpdateRowsV0 || et == EventTypeUpdateRowsV1 || et == EventTypeUpdateRowsV2 ||
  et == EventTypeDeleteRowsV0 || et == EventTypeDeleteRowsV1 || et == EventTypeDeleteRowsV2

/-- The payload slicing of `ReadEvent` (src/reader/reader.go lines 80-85):
drop the format's header length, then drop the trailing 4-byte CRC32 checksum
unless the event is a format description.  Out-of-range Go slicing panics
(`none`). -/
def slicePayload (fd : FormatDescription) (t : EventType) (connBuff : List Nat) :
    Option (List Nat) :=
  if fd.HeaderLen ≤ connBuff.length then
    let b := connBuff.drop fd.HeaderLen
    if t ≠ EventTypeFormatDescription ∧ fd.ServerDetails.ChecksumAlgorithm = .algCRC32 then
      if 4 ≤ b.length then some (b.take (b.length - 4)) else none
    else some b
  else none

/-- The `EventTypeFormatDescription` case of the `ReadEvent` switch
(src/reader/reader.go lines 88-94). -/
def handleFormatDescription (r : Reader) (evt : Event) (payload : List Nat) :
    ReadResult × Reader :=
  match FormatDescriptionEvent.Decode payload with
  | none => (.fail .decodeFormatDescription, r)
  | some fd => (.ok { evt with Format := fd }, { r with format := fd })

/-- The `EventTypeRotate` case of the `ReadEvent` switch
(src/reader/reader.go lines 96-101). -/
def handleRotate (r : Reader) (evt : Event) (payload : List Nat) :
    ReadResult × Reader :=
  match RotateEvent.Decode payload r.format with
  | none => (.panicked, r)
  | some pos => (.ok evt, { r with state := pos })

/-- The `EventTypeTableMap` case of the `ReadEvent` switch
(src/reader/reader.go lines 103-108). -/
def handleTableMap (r : Reader) (evt : Event) (payload : List Nat) :
    ReadResult × Reader :=
  match TableMapEvent.Decode payload r.format with
  | none => (.fail .decodeTableMap, r)
  | some (tableID, td) =>
    (.ok evt, { r with tableMap := tmInsert r.tableMap tableID td })

/-- The rows-event case of the `ReadEvent` switch (src/reader/reader.go lines
110-133): peek table id and flags, look the table up (a missing id returns
`ErrUnknownTableID` and no event), attach the table description snapshot, and
clear the table map when the event carries the end-of-statement flag while
the map holds more than 100 entries. -/
def handleRows (r : Reader) (evt : Event) (typ : EventType) (payload : List Nat) :
    ReadResult × Reader :=
  match RowsEvent.PeekTableIDAndFlags typ payload r.format with
  | none => (.panicked, r)
  | some (tableID, flags) =>
    match r.tableMap.lookup tableID with
    | none => (.fail .unknownTableID, r)
    | some td =>
      let evt := { evt with Table := some td }
      if RowsFlagEndOfStatement &&& flags > 0 ∧ 100 < r.tableMap.length then
        (.ok evt, initTableMap r)
      else (.ok evt, r)

/-- The `switch evt.Header.Type` of `ReadEvent` (src/reader/reader.go lines
87-140); query, XID, GTID and unknown types pass through unchanged. -/
def dispatchEvent (r : Reader) (hdr : EventHeader) (payload : List Nat)
    (evtOffset : Nat) : ReadResult × Reader :=
  let evt : Event := { Format := r.format, Header := hdr, Buffer := payload,
                       Offset := evtOffset, Table := none }
  if hdr.typ = EventTypeFormatDescription then handleFormatDescription r evt payload
  else if hdr.typ = EventTypeRotate then handleRotate r evt payload
  else if hdr.typ = EventTypeTableMap then handleTableMap r evt payload
  else if isRowsType hdr.typ then handleRows r evt hdr.typ payload
  else (.ok evt, r)

/-- The offset advancement of `ReadEvent` (src/reader/reader.go lines 76-78):
`state.Offset` becomes the header's next offset when that is nonzero. -/
def advancedReader (r : Reader) (hdr : EventHeader) : Reader :=
  if 0 < hdr.NextOffset then
    { r with state := { r.state with Offset := hdr.NextOffset } }
  else r

/-- Embeds `Reader.ReadEvent` (src/reader/reader.go lines 66-143) on one packet:
decode the header, advance `state.Offset` to the header's next offset when
nonzero, slice the payload, and dispatch on the event type.  The connection
read is external; the packet bytes are the input. -/
def ReadEvent (r : Reader) (connBuff : List Nat) : ReadResult × Reader :=
  match EventHeader.Decode connBuff r.format with
  | none => (.fail .decodeHeader, r)
  | some hdr =>
    let r1 := advancedReader r hdr
    match slicePayload r1.format hdr.typ connBuff with
    | none => (.panicked, r1)
    | some payload => dispatchEvent r1 hdr payload r.state.Offset

/-- Embeds `Config` (src/unnamed/part_000, the slave connection configuration; the
analogous `driver.Config` consumed by `New` has the same `File`/`Offset`
fields). -/
structure Config where
  ServerID : Nat
  File : List Nat
  Offset : Nat
  Hostname : List Nat
  deriving DecidableEq

/-- The Go zero value of `FormatDescription`: `New` leaves `r.format` unset
until the first format description event arrives. -/
def FormatDescriptionZero : FormatDescription :=
  { Version := 0, ServerVersion := [], CreateTimestamp := 0, HeaderLen := 0,
    EventTypeHeaderLens := [], ServerDetails := { ChecksumAlgorithm := .algNone } }

/-- Embeds `New` (src/reader/reader.go lines 37-63), state initialization only: the
position is `(sc.File, uint64(sc.Offset))` as configured, and the table map
starts empty (`initTableMap`).  The connection handshake is external. -/
def New (sc : Config) : Reader :=
  { state := { File := sc.File, Offset := sc.Offset },
    format := FormatDescriptionZero, tableMap := [] }

/-- The byte string `"localhost"`. -/
def localhostBytes : List Nat := [108, 111, 99, 97, 108, 104, 111, 115, 116]

/-- The config normalization of `Connect` (src/unnamed/part_000 lines 40-51):
the hostname is unconditionally overwritten with `"localhost"`, and the
offset of the connection's own copy of the config is raised to 4 only when it
is 0.  The `os.Hostname` lookup (discarded by the overwrite) and the driver
dial are external. -/
def connectConfig (conf : Config) : Config :=
  let conf2 := { conf with Hostname := localhostBytes }
  if conf2.Offset = 0 then { conf2 with Offset := 4 } else conf2

/-- The column types handled by the `dispatchValue` switch; every other
type — old Decimal (0) and NewDate (14) included — falls to the
unsupported-type sentinel. -/
def handledTypes : List Nat :=
  [ColumnTypeNull, ColumnTypeTiny, ColumnTypeShort, ColumnTypeInt24,
   ColumnTypeLong, ColumnTypeLonglong, ColumnTypeFloat, ColumnTypeDouble,
   ColumnTypeNewDecimal, ColumnTypeYear, ColumnTypeDate, ColumnTypeTime,
   ColumnTypeTime2, ColumnTypeTimestamp, ColumnTypeTimestamp2,
   ColumnTypeDatetime, ColumnTypeDatetime2, ColumnTypeString,
   ColumnTypeVarchar, ColumnTypeVarstring, ColumnTypeBlob, ColumnTypeGeometry,
   ColumnTypeJSON, ColumnTypeTinyblob, ColumnTypeMediumblob,
   ColumnTypeLongblob, ColumnTypeBit, ColumnTypeSet, ColumnTypeEnum]

/-- A column type the codec does not support. -/
def isUnsupportedType (ct : Nat) : Bool := !(handledTypes.contains ct)

/-! ## Concrete fixtures used by witnesses and counterexamples -/

/-- A format description as established by a format handshake: binlog v4,
19-byte header, no checksum. -/
def fd19 : FormatDescription :=
  { Version := 4, ServerVersion := [], CreateTimestamp := 0, HeaderLen := 19,
    EventTypeHeaderLens := [], ServerDetails := { ChecksumAlgorithm := .algNone } }

/-- Variant of `fd19` with CRC32 checksums enabled. -/
def fdCRC : FormatDescription :=
  { fd19 with ServerDetails := { ChecksumAlgorithm := .algCRC32 } }

/-- A format description whose per-type header length is 6 for every type:
all rows events then use the 4-byte table-id layout. -/
def fd4 : FormatDescription :=
  { fd19 with EventTypeHeaderLens := List.replicate 40 6 }

/-- A table description with no columns. -/
def td0 : TableDescription :=
  { Schema := [], Table := [], ColumnTypes := [], ColumnMeta := [], NullBitmap := [] }

/-- A two-column table: a Tiny column followed by an (unsupported) old
Decimal column. -/
def td10 : TableDescription :=
  { Schema := [], Table := [], ColumnTypes := [ColumnTypeTiny, ColumnTypeDecimal],
    ColumnMeta := [0, 0], NullBitmap := [] }

/-- A table-map packet under `fd19`: 19-byte header (type 19, next offset 4)
and a minimal table-map payload mapping table id `i` (6 bytes little-endian)
to a zero-column table. -/
def tmPacket (i : Nat) : List Nat :=
  [0, 0, 0, 0, 19, 0, 0, 0, 0, 33, 0, 0, 0, 4, 0, 0, 0, 0, 0] ++
  [i % 256, i / 256, 0, 0, 0, 0] ++ [0, 0, 0, 0, 0, 0, 0, 0]

/-- A fresh reader that has completed the format handshake with `fd19`. -/
def rFresh : Reader :=
  { state := { File := [], Offset := 4 }, format := fd19, tableMap := [] }

/-- The reader `rFresh` after 101 table-map packets with distinct table ids have been
processed through `ReadEvent`. -/
def c2Run : Reader :=
  (List.range 101).foldl (fun r i => (ReadEvent r (tmPacket i)).2) rFresh

/-- A WriteRowsV1 packet under `fd19`: 19-byte header (type 23, next offset
2313) and a rows payload with table id 5 and flags 1 (end of statement). -/
def rowsPacketW : List Nat :=
  [0, 0, 0, 0, 23, 0, 0, 0, 0, 27, 0, 0, 0, 9, 9, 0, 0, 0, 0] ++
  [5, 0, 0, 0, 0, 0] ++ [1, 0]

/-- A reader holding 101 table-map entries (ids 0..100, all `td0`). -/
def r101 : Reader :=
  { rFresh with tableMap := (List.range 101).map (fun i => (i, td0)) }

/-- A rotate packet under `fd19` whose stored next offset is 0 and whose
target file is `"a"`. -/
def rotPacket0 : List Nat :=
  [0, 0, 0, 0, 4, 0, 0, 0, 0, 28, 0, 0, 0, 0, 0, 0, 0, 0, 0] ++
  [0, 0, 0, 0, 0, 0, 0, 0] ++ [97]

/-- A rows-event buffer for `td10` under `fd19`: table id 5, flags 0, two
columns both present, none null, a Tiny value 7 and an old-Decimal column. -/
def cb10 : List Nat := [5, 0, 0, 0, 0, 0, 0, 0, 2, 3, 0, 7]

/-- The rows event `RowsEvent.Decode` produces from `cb10`. -/
def re10 : RowsEvent :=
  { typ := EventTypeWriteRowsV1, TableID := 5, Flags := 0, ExtraData := [],
    ColumnCount := 2, ColumnBitmap1 := [3], ColumnBitmap2 := [],
    Rows := [[Value.uint 7, Value.unsupported ColumnTypeDecimal 0]] }

/-- A minimal rows-event buffer with the 4-byte table-id layout (under
`fd4`): table id 7, flags 0, zero columns. -/
def cb9b : List Nat := [7, 0, 0, 0, 0, 0, 0]

/-- A rotate packet under `fd19` whose stored next offset is 4 and whose
target file is `"a"`. -/
def rotPacket4 : List Nat :=
  [0, 0, 0, 0, 4, 0, 0, 0, 0, 28, 0, 0, 0, 0, 0, 0, 0, 0, 0] ++
  [4, 0, 0, 0, 0, 0, 0, 0] ++ [97]

/-- The rotate payload carried by `rotPacket4`. -/
def rotPayload4 : List Nat := [4, 0, 0, 0, 0, 0, 0, 0, 97]

/-- The position decoded from `rotPayload4`. -/
def rotPos4 : Position := { File := [97], Offset := 4 }

/-- A reader whose format advertises CRC32 checksums. -/
def rCRC : Reader := { rFresh with format := fdCRC }

/-- A Query packet under `fdCRC`: 19-byte header (type 2, next offset 7) and
6 payload bytes of which the last 4 are the CRC32 checksum. -/
def pktC6 : List Nat :=
  [0, 0, 0, 0, 2, 0, 0, 0, 0, 25, 0, 0, 0, 7, 0, 0, 0, 0, 0] ++
  [10, 20, 30, 40, 50, 60]

/-- The header carried by `pktC6`. -/
def hdrC6 : EventHeader :=
  { Timestamp := 0, typ := 2, ServerID := 0, EventLen := 25, NextOffset := 7,
    Flags := 0 }

/-! ## Helper lemmas -/

theorem Dec.run_bind {α β : Type} (x : Dec α) (f : α → Dec β) (b : Buffer) :
    (x >>= f) b = (x b).bind (fun p => f p.1 p.2) := rfl

theorem Dec.run_pure {α : Type} (a : α) (b : Buffer) :
    (pure a : Dec α) b = some (a, b) := rfl

theorem Dec.bind_eq_some {α β : Type} (x : Dec α) (f : α → Dec β) (b : Buffer)
    (out : β × Buffer) :
    (x >>= f) b = some out ↔ ∃ a b1, x b = some (a, b1) ∧ f a b1 = some out := by
  rw [Dec.run_bind]
  cases h : x b with
  | none => simp
  | some p =>
    obtain ⟨a, b1⟩ := p
    simp only [Option.some_bind, Option.some.injEq, Prod.mk.injEq]
    constructor
    · intro hf; exact ⟨a, b1, ⟨rfl, rfl⟩, hf⟩
    · rintro ⟨a2, b2, ⟨rfl, rfl⟩, hf⟩; exact hf

theorem advancedReader_format (r : Reader) (hdr : EventHeader) :
    (advancedReader r hdr).format = r.format := by
  unfold advancedReader; split <;> rfl

theorem advancedReader_tableMap (r : Reader) (hdr : EventHeader) :
    (advancedReader r hdr).tableMap = r.tableMap := by
  unfold advancedReader; split <;> rfl

theorem isRowsType_ne {t : EventType} (h : isRowsType t = true) :
    ¬ t = EventTypeFormatDescription ∧ ¬ t = EventTypeRotate ∧ ¬ t = EventTypeTableMap := by
  simp only [isRowsType, Bool.or_eq_true, beq_iff_eq] at h
  rcases h with ((((((((h | h) | h) | h) | h) | h) | h) | h) | h) <;> subst h <;>
    exact ⟨by decide, by decide, by decide⟩

theorem dispatchEvent_rows (r : Reader) (hdr : EventHeader) (payload : List Nat)
    (evtOffset : Nat) (h : isRowsType hdr.typ = true) :
    dispatchEvent r hdr payload evtOffset =
      handleRows r { Format := r.format, Header := hdr, Buffer := payload,
                     Offset := evtOffset, Table := none } hdr.typ payload := by
  obtain ⟨h1, h2, h3⟩ := isRowsType_ne h
  unfold dispatchEvent
  rw [if_neg h1, if_neg h2, if_neg h3, if_pos h]

theorem ReadEvent_rows_eq (r : Reader) (connBuff : List Nat) (hdr : EventHeader)
    (payload : List Nat)
    (hh : EventHeader.Decode connBuff r.format = some hdr)
    (hrows : isRowsType hdr.typ = true)
    (hsp : slicePayload r.format hdr.typ connBuff = some payload) :
    ReadEvent r connBuff =
      handleRows (advancedReader r hdr)
        { Format := r.format, Header := hdr, Buffer := payload,
          Offset := r.state.Offset, Table := none } hdr.typ payload := by
  unfold ReadEvent
  rw [hh]
  simp only [advancedReader_format, hsp]
  rw [dispatchEvent_rows _ _ _ _ hrows, advancedReader_format]

/-! ## C1 -/

/-- C1: for every rows-event (any of the nine write/update/delete v0/v1/v2
variants) whose peeked table id is not a key of the Reader's table map,
`ReadEvent` returns the `UnknownTableID` error and no event, and the
Reader's `position.offset` has nevertheless already been advanced to the
event header's next offset (here nonzero). -/
theorem readEvent_unknownTableID (r : Reader) (connBuff : List Nat)
    (hdr : EventHeader) (payload : List Nat) (tid fl : Nat)
    (hh : EventHeader.Decode connBuff r.format = some hdr)
    (hrows : isRowsType hdr.typ = true)
    (hsp : slicePayload r.format hdr.typ connBuff = some payload)
    (hpeek : RowsEvent.PeekTableIDAndFlags hdr.typ payload r.format = some (tid, fl))
    (hmiss : r.tableMap.lookup tid = none)
    (hoff : 0 < hdr.NextOffset) :
    ReadEvent r connBuff =
      (.fail .unknownTableID,
       { r with state := { r.state with Offset := hdr.NextOffset } }) := by
  rw [ReadEvent_rows_eq r connBuff hdr payload hh hrows hsp]
  unfold handleRows
  rw [advancedReader_format, hpeek]
  simp only [advancedReader_tableMap, hmiss]
  unfold advancedReader
  rw [if_pos hoff]

/-- Witness for C1: a WriteRowsV1 packet with unmapped table id 5 against a
fresh reader; the error is returned and the offset advances to 2313. -/
theorem readEvent_unknownTableID_witness :
    ReadEvent rFresh rowsPacketW =
      (.fail .unknownTableID,
       { rFresh with state := { rFresh.state with Offset := 2313 } }) :=
  readEvent_unknownTableID rFresh rowsPacketW
    { Timestamp := 0, typ := 23, ServerID := 0, EventLen := 27,
      NextOffset := 2313, Flags := 0 }
    [5, 0, 0, 0, 0, 0, 1, 0] 5 1
    (by decide) (by decide) (by decide) (by decide) (by decide) (by decide)

/-! ## C4 -/

/-- C4 counterexample: with configured offset 1 the Reader's initial offset
is 1, not `max 1 4 = 4`; the claimed clamping to 4 does not happen. -/
theorem new_offset_not_clamped :
    (New { ServerID := 1, File := [97], Offset := 1, Hostname := [] }).state.Offset = 1 ∧
    (1 : Nat) ≠ max 1 4 := by
  constructor
  · rfl
  · decide

/-- C4 (amended): the Reader's initial position is exactly
`(config.file, config.offset)` with no clamping; separately, the slave
connection raises its own copy of the offset to 4 only when the configured
offset is 0 (offsets 1-3 are passed through unchanged). -/
theorem new_initial_position (sc : Config) :
    (New sc).state = { File := sc.File, Offset := sc.Offset } ∧
    (connectConfig sc).Offset = (if sc.Offset = 0 then 4 else sc.Offset) := by
  refine ⟨rfl, ?_⟩
  unfold connectConfig
  by_cases h : sc.Offset = 0 <;> simp [h]

/-! ## C2 -/

set_option maxRecDepth 4000 in
/-- C2 counterexample: processing 101 table-map packets with distinct table
ids through `ReadEvent` leaves a reachable post-call table map of 101
entries — the map is not bounded by 100 after every call, since the flush
check only runs on rows events. -/
theorem tableMap_exceeds_100 :
    c2Run.tableMap.length = 101 ∧ ¬ c2Run.tableMap.length ≤ 100 := by
  refine ⟨by decide, by decide⟩

/-- C2 (amended): the 100-entry bound holds only after the flush step
actually runs: any `ReadEvent` call that processes a rows-event carrying the
`EndOfStatement` flag with a mapped table id leaves at most 100 entries
(clearing the map when it held more than 100); calls that process other
events — table-map inserts in particular — can leave more than 100 entries. -/
theorem readEvent_rows_flush_bound (r : Reader) (connBuff : List Nat)
    (hdr : EventHeader) (payload : List Nat) (tid fl : Nat) (td : TableDescription)
    (hh : EventHeader.Decode connBuff r.format = some hdr)
    (hrows : isRowsType hdr.typ = true)
    (hsp : slicePayload r.format hdr.typ connBuff = some payload)
    (hpeek : RowsEvent.PeekTableIDAndFlags hdr.typ payload r.format = some (tid, fl))
    (hfound : r.tableMap.lookup tid = some td)
    (heos : RowsFlagEndOfStatement &&& fl > 0) :
    ((ReadEvent r connBuff).2).tableMap.length ≤ 100 := by
  rw [ReadEvent_rows_eq r connBuff hdr payload hh hrows hsp]
  unfold handleRows
  rw [advancedReader_format, hpeek]
  simp only [advancedReader_tableMap, hfound]
  by_cases hlen : 100 < r.tableMap.length
  · rw [if_pos ⟨heos, hlen⟩]
    simp [initTableMap]
  · rw [if_neg (fun hc => hlen hc.2)]
    simp only [advancedReader_tableMap]
    omega

/-- Witness for the amended C2: a rows-event with the end-of-statement flag
against a reader holding 101 entries leaves at most 100 entries. -/
theorem readEvent_rows_flush_bound_witness :
    ((ReadEvent r101 rowsPacketW).2).tableMap.length ≤ 100 :=
  readEvent_rows_flush_bound r101 rowsPacketW
    { Timestamp := 0, typ := 23, ServerID := 0, EventLen := 27,
      NextOffset := 2313, Flags := 0 }
    [5, 0, 0, 0, 0, 0, 1, 0] 5 1 td0
    (by decide) (by decide) (by decide) (by decide) (by decide) (by decide)

/-! ## C7 -/

/-- C7: a rows-event that triggers the table-map flush (end-of-statement
flag and more than 100 entries) still carries the table description that was
mapped to its table id — the snapshot is taken before the flush — while the
table map itself is empty after the call. -/
theorem readEvent_rows_snapshot (r : Reader) (connBuff : List Nat)
    (hdr : EventHeader) (payload : List Nat) (tid fl : Nat) (td : TableDescription)
    (hh : EventHeader.Decode connBuff r.format = some hdr)
    (hrows : isRowsType hdr.typ = true)
    (hsp : slicePayload r.format hdr.typ connBuff = some payload)
    (hpeek : RowsEvent.PeekTableIDAndFlags hdr.typ payload r.format = some (tid, fl))
    (hfound : r.tableMap.lookup tid = some td)
    (heos : RowsFlagEndOfStatement &&& fl > 0)
    (hlen : 100 < r.tableMap.length) :
    (ReadEvent r connBuff).1 =
      .ok { Format := r.format, Header := hdr, Buffer := payload,
            Offset := r.state.Offset, Table := some td } ∧
    ((ReadEvent r connBuff).2).tableMap = [] := by
  rw [ReadEvent_rows_eq r connBuff hdr payload hh hrows hsp]
  unfold handleRows
  rw [advancedReader_format, hpeek]
  simp only [advancedReader_tableMap, hfound]
  rw [if_pos ⟨heos, hlen⟩]
  exact ⟨rfl, rfl⟩

/-- Witness for C7: against a reader with 101 mapped tables, the returned
event still carries table 5's description while the map is flushed empty. -/
theorem readEvent_rows_snapshot_witness :
    (ReadEvent r101 rowsPacketW).1 =
      .ok { Format := r101.format,
            Header := { Timestamp := 0, typ := 23, ServerID := 0, EventLen := 27,
                        NextOffset := 2313, Flags := 0 },
            Buffer := [5, 0, 0, 0, 0, 0, 1, 0],
            Offset := r101.state.Offset, Table := some td0 } ∧
    ((ReadEvent r101 rowsPacketW).2).tableMap = [] :=
  readEvent_rows_snapshot r101 rowsPacketW
    { Timestamp := 0, typ := 23, ServerID := 0, EventLen := 27,
      NextOffset := 2313, Flags := 0 }
    [5, 0, 0, 0, 0, 0, 1, 0] 5 1 td0
    (by decide) (by decide) (by decide) (by decide) (by decide) (by decide) (by decide)

/-! ## C5 -/

theorem Buffer.readUint64_new (l : List Nat) :
    Buffer.readUint64 (Buffer.new l) =
      if 8 ≤ l.length then some (leUint (l.take 8), (⟨l, 8⟩ : Buffer)) else none := by
  unfold Buffer.readUint64
  rw [Dec.run_bind]
  unfold Buffer.readBytes Buffer.new
  by_cases h : 8 ≤ l.length
  · rw [if_pos (by simpa using h), if_pos h]
    simp [Dec.run_pure]
  · rw [if_neg (by simpa using h), if_neg h]
    rfl

/-- Value of `RotateEvent.Decode` on any buffer: the offset is the leading
little-endian u64 when the format version exceeds 1 (a shorter buffer
panics), else the fixed offset 4; the file is the remaining bytes. -/
theorem RotateEvent.Decode_eq (connBuff : List Nat) (fd : FormatDescription) :
    RotateEvent.Decode connBuff fd =
      if 1 < fd.Version then
        (if 8 ≤ connBuff.length then
           some { File := connBuff.drop 8, Offset := leUint (connBuff.take 8) }
         else none)
      else some { File := connBuff, Offset := 4 } := by
  unfold RotateEvent.Decode RotateEvent.DecodeBody
  by_cases hv : 1 < fd.Version
  · simp only [if_pos hv]
    rw [Dec.run_bind, Buffer.readUint64_new]
    by_cases hl : 8 ≤ connBuff.length
    · rw [if_pos hl, if_pos hl]
      simp [Dec.run_bind, Dec.run_pure, Buffer.readStringEOF]
    · rw [if_neg hl, if_neg hl]
      rfl
  · simp only [if_neg hv]
    rw [Dec.run_bind, Dec.run_pure]
    simp [Dec.run_bind, Dec.run_pure, Buffer.readStringEOF, Buffer.new]

theorem dispatchEvent_rotate (r : Reader) (hdr : EventHeader) (payload : List Nat)
    (evtOffset : Nat) (h : hdr.typ = EventTypeRotate) :
    dispatchEvent r hdr payload evtOffset =
      handleRotate r { Format := r.format, Header := hdr, Buffer := payload,
                       Offset := evtOffset, Table := none } payload := by
  have h1 : ¬ hdr.typ = EventTypeFormatDescription := by rw [h]; decide
  unfold dispatchEvent
  rw [if_neg h1, if_pos h]

/-- C5 (amended): for every rotate event processed by `ReadEvent`, the
Reader's position is replaced by exactly the pair decoded from the event —
offset read as a little-endian u64 when `format.Version > 1`, else fixed at
4; file read as the remaining bytes — so `position.File` equals the rotate's
target file; `position.Offset ≥ 4` is guaranteed only in the version ≤ 1
case and is otherwise whatever the event stored. -/
theorem readEvent_rotate (r : Reader) (connBuff : List Nat) (hdr : EventHeader)
    (payload : List Nat) (pos : Position)
    (hh : EventHeader.Decode connBuff r.format = some hdr)
    (ht : hdr.typ = EventTypeRotate)
    (hsp : slicePayload r.format hdr.typ connBuff = some payload)
    (hdec : RotateEvent.Decode payload r.format = some pos) :
    (ReadEvent r connBuff).2.state = pos ∧
    pos.File = payload.drop (if 1 < r.format.Version then 8 else 0) ∧
    pos.Offset = (if 1 < r.format.Version then leUint (payload.take 8) else 4) := by
  refine ⟨?_, ?_⟩
  · unfold ReadEvent
    rw [hh]
    simp only [advancedReader_format, hsp]
    rw [dispatchEvent_rotate _ _ _ _ ht]
    unfold handleRotate
    rw [advancedReader_format, hdec]
  · rw [RotateEvent.Decode_eq] at hdec
    by_cases hv : 1 < r.format.Version
    · rw [if_pos hv] at hdec
      by_cases hl : 8 ≤ payload.length
      · rw [if_pos hl] at hdec
        injection hdec with h2
        subst h2
        simp [hv]
      · rw [if_neg hl] at hdec; cases hdec
    · rw [if_neg hv] at hdec
      injection hdec with h2
      subst h2
      simp [hv]

/-- Witness for the amended C5: a rotate to `("a", 4)` replaces the
position accordingly. -/
theorem readEvent_rotate_witness :
    (ReadEvent rFresh rotPacket4).2.state = rotPos4 ∧
    rotPos4.File = rotPayload4.drop (if 1 < rFresh.format.Version then 8 else 0) ∧
    rotPos4.Offset = (if 1 < rFresh.format.Version then leUint (rotPayload4.take 8) else 4) :=
  readEvent_rotate rFresh rotPacket4
    { Timestamp := 0, typ := 4, ServerID := 0, EventLen := 28,
      NextOffset := 0, Flags := 0 }
    rotPayload4 rotPos4 (by decide) (by decide) (by decide) (by decide)

/-- C5 counterexample: a rotate event whose stored offset is 0 is accepted
as-is — afterwards `position.Offset = 0`, so the claimed
`position.offset ≥ 4` fails. -/
theorem readEvent_rotate_offset_zero :
    (ReadEvent rFresh rotPacket0).2.state = { File := [97], Offset := 0 } ∧
    ¬ 4 ≤ (ReadEvent rFresh rotPacket0).2.state.Offset := by
  refine ⟨by decide, by decide⟩

/-! ## C6 -/

theorem slicePayload_eq (fd : FormatDescription) (t : EventType) (connBuff : List Nat)
    (h1 : fd.HeaderLen ≤ connBuff.length)
    (h2 : (t ≠ EventTypeFormatDescription ∧
           fd.ServerDetails.ChecksumAlgorithm = .algCRC32) →
          4 ≤ connBuff.length - fd.HeaderLen) :
    slicePayload fd t connBuff =
      some (if t ≠ EventTypeFormatDescription ∧
               fd.ServerDetails.ChecksumAlgorithm = .algCRC32
            then (connBuff.drop fd.HeaderLen).take ((connBuff.drop fd.HeaderLen).length - 4)
            else connBuff.drop fd.HeaderLen) := by
  unfold slicePayload
  rw [if_pos h1]
  by_cases hc : t ≠ EventTypeFormatDescription ∧
      fd.ServerDetails.ChecksumAlgorithm = .algCRC32
  · rw [if_pos hc, if_pos (by rw [List.length_drop]; exact h2 hc), if_pos hc]
  · rw [if_neg hc, if_neg hc]

/-- C6: for every packet processed by `ReadEvent`, the payload handed onward
to the event dispatch is the packet with the first `format.HeaderLen` bytes
removed, with exactly the trailing 4 bytes additionally dropped if and only
if the format's checksum algorithm is CRC32 and the header type is not
FormatDescription. -/
theorem readEvent_payload (r : Reader) (connBuff : List Nat) (hdr : EventHeader)
    (hh : EventHeader.Decode connBuff r.format = some hdr)
    (h1 : r.format.HeaderLen ≤ connBuff.length)
    (h2 : (hdr.typ ≠ EventTypeFormatDescription ∧
           r.format.ServerDetails.ChecksumAlgorithm = .algCRC32) →
          4 ≤ connBuff.length - r.format.HeaderLen) :
    ReadEvent r connBuff =
      dispatchEvent (advancedReader r hdr) hdr
        (if hdr.typ ≠ EventTypeFormatDescription ∧
            r.format.ServerDetails.ChecksumAlgorithm = .algCRC32
         then (connBuff.drop r.format.HeaderLen).take
                ((connBuff.drop r.format.HeaderLen).length - 4)
         else connBuff.drop r.format.HeaderLen)
        r.state.Offset := by
  unfold ReadEvent
  rw [hh]
  simp only [advancedReader_format]
  rw [slicePayload_eq r.format hdr.typ connBuff h1 h2]

/-- Witness for C6: a Query packet under a CRC32 format loses its 19-byte
header and its trailing 4 checksum bytes. -/
theorem readEvent_payload_witness :
    ReadEvent rCRC pktC6 =
      dispatchEvent (advancedReader rCRC hdrC6) hdrC6
        (if hdrC6.typ ≠ EventTypeFormatDescription ∧
            rCRC.format.ServerDetails.ChecksumAlgorithm = .algCRC32
         then (pktC6.drop rCRC.format.HeaderLen).take
                ((pktC6.drop rCRC.format.HeaderLen).length - 4)
         else pktC6.drop rCRC.format.HeaderLen)
        rCRC.state.Offset :=
  readEvent_payload rCRC pktC6 hdrC6 (by decide) (by decide) (by decide)

/-! ## C3 -/

/-- C3 counterexample: `PeekTableIDAndFlags` on an empty buffer hits a Go
index-out-of-range panic (modelled `none`) and has no recovery, so the panic
propagates to the caller — refuting the claim that both rows-event decoders
never propagate a panic. -/
theorem peek_panics_on_truncated :
    RowsEvent.PeekTableIDAndFlags EventTypeWriteRowsV1 [] fd19 = none := by decide

/-- C3 (amended): `RowsEvent.Decode` never propagates a panic — any panic
raised while decoding the body is recovered and converted into the returned
error — but `PeekTableIDAndFlags` performs unguarded reads and panics on a
buffer too short for the table id and flags. -/
theorem rowsDecode_recovers_panic (typ : EventType) (connBuff : List Nat)
    (fd : FormatDescription) (td : TableDescription)
    (hp : RowsEvent.decodeBody typ fd td (Buffer.new connBuff) = none) :
    RowsEvent.Decode typ connBuff fd td =
      .error "Recovered from panic in RowsEvent.Decode" := by
  unfold RowsEvent.Decode
  rw [hp]

/-- Witness for the amended C3: decoding an empty buffer panics internally
and `Decode` returns the recovered error. -/
theorem rowsDecode_recovers_panic_witness :
    RowsEvent.Decode EventTypeWriteRowsV1 [] fd19 td0 =
      .error "Recovered from panic in RowsEvent.Decode" :=
  rowsDecode_recovers_panic EventTypeWriteRowsV1 [] fd19 td0 (by decide)

/-! ## C8 -/

theorem stringMetaRewrite_gt (meta : Nat) (hm : 0xFF < meta) (hw : meta < 0x10000) :
    stringMetaRewrite ColumnTypeString meta =
      (if (meta >>> 8) &&& 0x30 ≠ 0x30 then
         ((meta >>> 8) ||| 0x30,
          (meta &&& 0xFF) ||| ((((meta >>> 8) &&& 0x30) ^^^ 0x30) <<< 4))
       else (meta >>> 8, meta &&& 0xFF)) := by
  unfold stringMetaRewrite
  rw [if_pos ⟨rfl, hm⟩]
  have h2 : meta >>> 8 < 256 := by
    rw [Nat.shiftRight_eq_div_pow]
    omega
  have h4 : meta &&& 0xFF < 256 := by
    have := Nat.and_le_right (n := meta) (m := 0xFF)
    omega
  have h1 : (meta >>> 8) % 256 = meta >>> 8 := Nat.mod_eq_of_lt h2
  have h3 : (meta &&& 0xFF) % 256 = meta &&& 0xFF := Nat.mod_eq_of_lt h4
  simp only [h1, h3]

/-- C8: for a String (0xFE) column with `meta > 0xFF`, the decoder splits
`meta` into `type_byte = meta >> 8` and `length_byte = meta & 0xFF`; when
`type_byte & 0x30 ≠ 0x30` the effective type becomes `type_byte | 0x30` and
the length `length_byte | (((type_byte & 0x30) XOR 0x30) << 4)`, otherwise
the type is `type_byte` and the length `length_byte`; and a true String
value is read with a 1-byte length prefix when the length is below 256 and a
2-byte prefix otherwise. -/
theorem decodeValue_string_meta (meta len : Nat) (b b2 : Buffer)
    (hm : 0xFF < meta) (hw : meta < 0x10000) :
    RowsEvent.decodeValue ColumnTypeString meta b =
      (if (meta >>> 8) &&& 0x30 ≠ 0x30 then
         dispatchValue ((meta >>> 8) ||| 0x30)
           ((meta &&& 0xFF) ||| ((((meta >>> 8) &&& 0x30) ^^^ 0x30) <<< 4)) meta b
       else dispatchValue (meta >>> 8) (meta &&& 0xFF) meta b) ∧
    readString len b2 = Buffer.readStringVarEnc (if len < 256 then 1 else 2) b2 := by
  constructor
  · unfold RowsEvent.decodeValue
    rw [stringMetaRewrite_gt meta hm hw]
    by_cases hc : (meta >>> 8) &&& 0x30 ≠ 0x30
    · rw [if_pos hc, if_pos hc]
    · rw [if_neg hc, if_neg hc]
  · unfold readString
    by_cases hl : len < 256
    · rw [if_pos hl, if_pos hl]
    · rw [if_neg hl, if_neg hl]

/-- Witness for C8 at `meta = 0x0102` (an Enum column stored under String):
the rewrite branch with `type_byte & 0x30 ≠ 0x30` is taken, and a length of
300 selects the 2-byte prefix. -/
theorem decodeValue_string_meta_witness :
    RowsEvent.decodeValue ColumnTypeString 0x0102 (Buffer.new []) =
      (if (0x0102 >>> 8) &&& 0x30 ≠ 0x30 then
         dispatchValue ((0x0102 >>> 8) ||| 0x30)
           ((0x0102 &&& 0xFF) ||| ((((0x0102 >>> 8) &&& 0x30) ^^^ 0x30) <<< 4))
           0x0102 (Buffer.new [])
       else dispatchValue (0x0102 >>> 8) (0x0102 &&& 0xFF) 0x0102 (Buffer.new [])) ∧
    readString 300 (Buffer.new [1, 1, 255]) =
      Buffer.readStringVarEnc (if 300 < 256 then 1 else 2) (Buffer.new [1, 1, 255]) :=
  decodeValue_string_meta 0x0102 300 (Buffer.new []) (Buffer.new [1, 1, 255])
    (by decide) (by decide)

/-! ## C9 -/

theorem Buffer.readLe_run (n : Nat) (b : Buffer) :
    ((Buffer.readBytes n : Dec (List Nat)) >>= fun bs => pure (leUint bs) : Dec Nat) b =
      if b.pos + n ≤ b.data.length
      then some (leUint ((b.data.drop b.pos).take n), ⟨b.data, b.pos + n⟩)
      else none := by
  rw [Dec.run_bind]
  unfold Buffer.readBytes
  split
  · rfl
  · rfl

theorem Buffer.readUint48_run (b : Buffer) :
    Buffer.readUint48 b =
      if b.pos + 6 ≤ b.data.length
      then some (leUint ((b.data.drop b.pos).take 6), ⟨b.data, b.pos + 6⟩)
      else none := Buffer.readLe_run 6 b

theorem Buffer.readUint32_run (b : Buffer) :
    Buffer.readUint32 b =
      if b.pos + 4 ≤ b.data.length
      then some (leUint ((b.data.drop b.pos).take 4), ⟨b.data, b.pos + 4⟩)
      else none := Buffer.readLe_run 4 b

theorem Buffer.readUint16_run (b : Buffer) :
    Buffer.readUint16 b =
      if b.pos + 2 ≤ b.data.length
      then some (leUint ((b.data.drop b.pos).take 2), ⟨b.data, b.pos + 2⟩)
      else none := Buffer.readLe_run 2 b

/-- C9: whenever `RowsEvent.Decode` succeeds, `PeekTableIDAndFlags` applied
to the same buffer and format returns exactly the `(TableID, Flags)` pair
that `Decode` assigned, in both the 6-byte and 4-byte table-id layouts. -/
theorem peek_agrees_decode (typ : EventType) (connBuff : List Nat)
    (fd : FormatDescription) (td : TableDescription) (re : RowsEvent)
    (h : RowsEvent.Decode typ connBuff fd td = .ok re) :
    RowsEvent.PeekTableIDAndFlags typ connBuff fd = some (re.TableID, re.Flags) := by
  unfold RowsEvent.Decode at h
  cases hb : RowsEvent.decodeBody typ fd td (Buffer.new connBuff) with
  | none => rw [hb] at h; cases h
  | some p =>
    obtain ⟨re1, bend⟩ := p
    rw [hb] at h
    injection h with h1
    subst h1
    unfold RowsEvent.decodeBody at hb
    unfold RowsEvent.PeekTableIDAndFlags
    by_cases hsz : fd.TableIDSize typ = 6
    · rw [if_pos hsz] at hb
      rw [if_pos hsz]
      rw [Dec.bind_eq_some] at hb
      obtain ⟨tid, b1, h1, hb⟩ := hb
      rw [Dec.bind_eq_some] at hb
      obtain ⟨fl, b2, h2, hb⟩ := hb
      rw [Dec.bind_eq_some] at hb
      obtain ⟨rest, b3, h3, hb⟩ := hb
      rw [Dec.run_pure] at hb
      injection hb with hb
      injection hb with hre hbend
      subst hre
      rw [Buffer.readUint48_run] at h1
      unfold Buffer.new at h1
      simp only [List.drop_zero, Nat.zero_add] at h1
      split at h1
      next h6 =>
        injection h1 with h1
        injection h1 with htid hb1
        subst htid
        subst hb1
        rw [Buffer.readUint16_run] at h2
        simp only at h2
        split at h2
        next h8 =>
          injection h2 with h2
          injection h2 with hfl hb2
          subst hfl
          unfold DecodeUint48 DecodeUint16
          rw [if_pos (by omega : 6 ≤ connBuff.length),
              if_pos (by rw [List.length_drop]; omega : 2 ≤ (connBuff.drop 6).length)]
        next => cases h2
      next => cases h1
    · rw [if_neg hsz] at hb
      rw [if_neg hsz]
      rw [Dec.bind_eq_some] at hb
      obtain ⟨tid, b1, h1, hb⟩ := hb
      rw [Dec.bind_eq_some] at hb
      obtain ⟨fl, b2, h2, hb⟩ := hb
      rw [Dec.bind_eq_some] at hb
      obtain ⟨rest, b3, h3, hb⟩ := hb
      rw [Dec.run_pure] at hb
      injection hb with hb
      injection hb with hre hbend
      subst hre
      rw [Buffer.readUint32_run] at h1
      unfold Buffer.new at h1
      simp only [List.drop_zero, Nat.zero_add] at h1
      split at h1
      next h6 =>
        injection h1 with h1
        injection h1 with htid hb1
        subst htid
        subst hb1
        rw [Buffer.readUint16_run] at h2
        simp only at h2
        split at h2
        next h8 =>
          injection h2 with h2
          injection h2 with hfl hb2
          subst hfl
          unfold DecodeUint32 DecodeUint16
          rw [if_pos (by omega : 4 ≤ connBuff.length),
              if_pos (by rw [List.length_drop]; omega : 2 ≤ (connBuff.drop 4).length)]
        next => cases h2
      next => cases h1

/-- The rows event `RowsEvent.Decode` produces from `cb9b` under the 4-byte
table-id layout. -/
theorem peek_agrees_decode_witness :
    RowsEvent.PeekTableIDAndFlags EventTypeWriteRowsV1 cb10 fd19 =
      some (re10.TableID, re10.Flags) ∧
    RowsEvent.PeekTableIDAndFlags EventTypeWriteRowsV1 cb9b fd4 =
      some ((7 : Nat), (0 : Nat)) :=
  ⟨peek_agrees_decode EventTypeWriteRowsV1 cb10 fd19 td10 re10 (by rfl),
   peek_agrees_decode EventTypeWriteRowsV1 cb9b fd4 td0
     { typ := EventTypeWriteRowsV1, TableID := 7, Flags := 0, ExtraData := [],
       ColumnCount := 0, ColumnBitmap1 := [], ColumnBitmap2 := [],
       Rows := [[]] } (by rfl)⟩

/-! ## C10 -/

theorem stringMetaRewrite_ne (ct meta : Nat) (hs : ct ≠ ColumnTypeString) :
    stringMetaRewrite ct meta = (ct, 0) := by
  unfold stringMetaRewrite
  rw [if_neg (fun hc => hs hc.1)]

theorem dispatchValue_unsupported (ct length meta : Nat) (b : Buffer)
    (hu : isUnsupportedType ct = true) :
    dispatchValue ct length meta b = some (Value.unsupported ct meta, b) := by
  have hmem : ¬ ct ∈ handledTypes := by
    simpa [isUnsupportedType] using hu
  have hne : ∀ x : Nat, x ∈ handledTypes → ¬ ct = x := fun x hx h => hmem (h ▸ hx)
  unfold dispatchValue
  rw [if_neg (hne _ (by decide)), if_neg (hne _ (by decide)),
      if_neg (hne _ (by decide)), if_neg (hne _ (by decide)),
      if_neg (hne _ (by decide)), if_neg (hne _ (by decide)),
      if_neg (hne _ (by decide)), if_neg (hne _ (by decide)),
      if_neg (hne _ (by decide)), if_neg (hne _ (by decide)),
      if_neg (hne _ (by decide)), if_neg (hne _ (by decide)),
      if_neg (hne _ (by decide)), if_neg (hne _ (by decide)),
      if_neg (hne _ (by decide)), if_neg (hne _ (by decide)),
      if_neg (hne _ (by decide)), if_neg (hne _ (by decide)),
      if_neg (fun h => h.elim (hne _ (by decide)) (hne _ (by decide))),
      if_neg (fun h => h.elim (hne _ (by decide)) (hne _ (by decide))),
      if_neg (hne _ (by decide)), if_neg (hne _ (by decide)),
      if_neg (hne _ (by decide)), if_neg (hne _ (by decide)),
      if_neg (hne _ (by decide)), if_neg (hne _ (by decide)),
      if_neg (hne _ (by decide))]
  rfl

/-- C10: a non-NULL present column whose effective type is unsupported —
old Decimal, NewDate, or any type the `dispatchValue` switch does not
handle — receives the `UnsupportedType` error sentinel: the value decoder
returns it consuming no bytes, the row loop places it at that column's slot
and continues with the next column, and (concretely) a full
`RowsEvent.Decode` over a Tiny column followed by an old-Decimal column
succeeds with the sentinel embedded in the decoded row. -/
theorem decodeValue_unsupported (ct meta : Nat) (b : Buffer)
    (td : TableDescription) (bm nullBM : List Nat) (rem i nullIdx nb : Nat)
    (b2 : Buffer)
    (hu : isUnsupportedType ct = true) (hs : ct ≠ ColumnTypeString)
    (hbit : isBitSet bm i = some true)
    (hnb : nullBM.get? (nullIdx >>> 3) = some nb)
    (hnull : (nb >>> (nullIdx % 8)) &&& 1 = 0)
    (hct : td.ColumnTypes.get? i = some ct)
    (hmeta : td.ColumnMeta.get? i = some meta) :
    RowsEvent.decodeValue ct meta b = some (Value.unsupported ct meta, b) ∧
    RowsEvent.decodeCols td bm nullBM (rem + 1) i nullIdx b2 =
      (RowsEvent.decodeCols td bm nullBM rem (i + 1) (nullIdx + 1) b2).map
        (fun p => (Value.unsupported ct meta :: p.1, p.2)) ∧
    RowsEvent.Decode EventTypeWriteRowsV1 cb10 fd19 td10 = .ok re10 := by
  have hval : ∀ bx : Buffer,
      RowsEvent.decodeValue ct meta bx = some (Value.unsupported ct meta, bx) := by
    intro bx
    unfold RowsEvent.decodeValue
    rw [stringMetaRewrite_ne ct meta hs]
    exact dispatchValue_unsupported ct 0 meta bx hu
  refine ⟨hval b, ?_, by rfl⟩
  simp only [RowsEvent.decodeCols]
  rw [hbit, hnb, hct, hmeta]
  simp only [hnull, gt_iff_lt, Nat.lt_irrefl, if_false]
  rw [Dec.run_bind, hval b2]
  simp only [Option.some_bind]
  rw [Dec.run_bind]
  cases hres : RowsEvent.decodeCols td bm nullBM rem (i + 1) (nullIdx + 1) b2 with
  | none => rfl
  | some p => rfl

/-- Witness for C10 at the old-Decimal column of `td10`. -/
theorem decodeValue_unsupported_witness :
    RowsEvent.decodeValue ColumnTypeDecimal 0 (Buffer.new [5]) =
      some (Value.unsupported ColumnTypeDecimal 0, Buffer.new [5]) ∧
    RowsEvent.decodeCols td10 [3] [0] (0 + 1) 1 1 (Buffer.new []) =
      (RowsEvent.decodeCols td10 [3] [0] 0 (1 + 1) (1 + 1) (Buffer.new [])).map
        (fun p => (Value.unsupported ColumnTypeDecimal 0 :: p.1, p.2)) ∧
    RowsEvent.Decode EventTypeWriteRowsV1 cb10 fd19 td10 = .ok re10 :=
  decodeValue_unsupported ColumnTypeDecimal 0 (Buffer.new [5]) td10 [3] [0]
    0 1 1 0 (Buffer.new [])
    (by decide) (by decide) (by decide) (by decide) (by decide) (by decide)
    (by decide)
